import Mathlib

/-!
Verification of the crew-rostering optimization core.

This file is a shallow embedding, in Lean 4, of the parts of the
crew-rostering code base that the verified properties talk about:

* `backend/core/models.py` (role normalization, night/WOCL window test,
  rules lookups) — here under the same names;
* `backend/core/eligibility.py` (role-slot expansion and the eligible
  (crew, flight, role, slot) relation);
* `backend/core/constraints.py` (the CP-SAT model builder
  `build_model_with_constraints`; we embed the generated constraint
  families as a satisfaction predicate on boolean solutions);
* `genetic_optimizer.py` (fitness evaluation, the continuity repair
  operator, mutation, random-solution construction, baseline/stability).

Modelling conventions:
* Python `datetime` values are modelled as `Int` timestamps in seconds;
  `.time()` is the residue modulo 86400 and `.date()` the euclidean
  quotient by 86400 (Lean's `%` and `/` on `Int` agree with Python's
  `%` and `//` for positive divisors).  Calendar day strings
  ("YYYY-MM-DD") are represented by their day number, which is in
  bijection with them.
* Python floats are idealized as rationals `ℚ`; the only genuinely
  irrational operation, `numpy.std`'s square root, is taken as an
  explicit function parameter `sq` so that concrete evaluations use it
  only at arguments where the square root is exact.
* Python's `random.choice` is modelled by an explicit stream of natural
  numbers: the k-th call picks index `seeds k % length`.
* Dictionaries keyed by identifier are modelled by association lists /
  `find?`; the code bases build these dicts from lists whose
  identifiers are unique in every data set, so `find?` (first match)
  agrees with the Python dict (last write wins).
-/

/-- Seconds-of-day of a timestamp, the model of Python `datetime.time()`. -/
def time_of_day (t : Int) : Int := t % 86400

/-- Day number of a timestamp, the model of Python `datetime.date()`. -/
def date_of (t : Int) : Int := t / 86400

/-- Python `str.strip()` on the underlying character list. -/
def pystrip (s : String) : String :=
  ⟨((s.data.dropWhile Char.isWhitespace).reverse.dropWhile Char.isWhitespace).reverse⟩

/-- Python `str.split("|")`: split a string at every pipe character. -/
def split_pipe_chars : List Char → List Char → List String
  | acc, [] => [⟨acc.reverse⟩]
  | acc, c :: rest =>
    if c = '|' then ⟨acc.reverse⟩ :: split_pipe_chars [] rest
    else split_pipe_chars (c :: acc) rest

/-- Python `str.split("|")` on a string. -/
def split_pipe (s : String) : List String := split_pipe_chars [] s.data

/-! ## models.py -/

/-- Normalize role strings to one of Captain / FO / SC / CC
(`models.role_key`). -/
def role_key (raw : String) : String :=
  let r := pystrip raw
  if r = "FO" ∨ r = "First Officer" then "FO"
  else if r = "Senior Crew" ∨ r = "Senior Cabin Crew" ∨ r = "SC" then "SC"
  else if r = "Junior Cabin Crew" ∨ r = "Cabin Crew" ∨ r = "CC" then "CC"
  else "Captain"

/-- Membership of a time-of-day in a local window, possibly wrapping
midnight; this is the inner `in_window` helper of `models.in_night_window`. -/
def window_mem (t s e : Int) : Bool :=
  if s > e then decide (t ≥ s ∨ t < e) else decide (s ≤ t ∧ t < e)

/-- The coarse night/WOCL membership test `models.in_night_window`:
an endpoint's time-of-day lies in the window, or the window wraps
midnight and the interval spans a date change. -/
def in_night_window (dep arr s e : Int) : Bool :=
  window_mem (time_of_day dep) s e || window_mem (time_of_day arr) s e ||
    (decide (s > e) && decide (date_of dep ≠ date_of arr))

/-- Flight record (`models.Flight`); timestamps in seconds, seat demand
per role. -/
structure Flight where
  flight_id : String
  dep_airport : String
  arr_airport : String
  dep_dt : Int
  arr_dt : Int
  aircraft_type : String
  needed_captains : Nat
  needed_fo : Nat
  needed_sc : Nat
  needed_cc : Nat
deriving DecidableEq, Repr

/-- Python property `Flight.duration_minutes`. -/
def Flight.duration_minutes (f : Flight) : Int := (f.arr_dt - f.dep_dt) / 60

/-- Crew record (`models.Crew`); `qualified_types` is the raw
pipe-separated string, as in the source. -/
structure Crew where
  crew_id : String
  name : String
  role : String
  base : String
  qualified_types : String
  weekly_max_duty_hrs : Option Int
  leave_status : String
  sccm_certified : Bool
  experience_months : Int
deriving DecidableEq, Repr

/-- Association-list lookup with default, the model of Python
`dict.get(key, default)` for the rules tables. -/
def dict_get (l : List (String × Int)) (k : String) (d : Int) : Int :=
  match l.find? (fun p => p.1 == k) with
  | some p => p.2
  | none => d

/-- Regulatory configuration (`models.Rules`).  The nested
`composition`/`flight_time_limits` dictionaries are flattened to the
values the constraint builder actually reads (each read in the source
is a `.get` with the default recorded here). -/
structure Rules where
  daily_max_duty_hrs : List (String × Int)
  weekly_max_duty_hrs_default : Int
  min_rest_hours_between_duties : Int
  max_overnight_duties_per_week : Int
  turnaround_minutes : Int
  night_duty_window : Int × Int
  max_consecutive_night_duties : Nat
  wocl_window : Int × Int
  flight_time_limits_hours_7_days : Int
  sccm_experience_min_months : Int
  min_sccm_ulh : Int
  ulh_ft_threshold_hours : ℚ
deriving Repr

/-- Daily duty cap in hours by normalized role (`Rules.daily_cap_for_role`). -/
def Rules.daily_cap_for_role (r : Rules) (role_norm : String) : Int :=
  if role_norm = "CC" then dict_get r.daily_max_duty_hrs "Cabin" 11
  else if role_norm = "SC" then
    dict_get r.daily_max_duty_hrs "Senior Cabin" (dict_get r.daily_max_duty_hrs "Cabin" 12)
  else if role_norm = "FO" then dict_get r.daily_max_duty_hrs "First Officer" 10
  else dict_get r.daily_max_duty_hrs "Captain" 10

/-- Night window boundaries as seconds-of-day (`Rules.night_window_times`;
the source turns stored minutes into `datetime.time` values). -/
def Rules.night_window_sec (r : Rules) : Int × Int :=
  (r.night_duty_window.1 * 60, r.night_duty_window.2 * 60)

/-- WOCL window boundaries as seconds-of-day (`Rules.wocl_window_times`). -/
def Rules.wocl_window_sec (r : Rules) : Int × Int :=
  (r.wocl_window.1 * 60, r.wocl_window.2 * 60)

/-- WOCL window length in minutes, as computed in
`build_model_with_constraints` from `rules.wocl_window`. -/
def Rules.wocl_len_minutes (r : Rules) : Int :=
  if r.wocl_window.2 ≥ r.wocl_window.1 then r.wocl_window.2 - r.wocl_window.1
  else 24 * 60 - (r.wocl_window.1 - r.wocl_window.2)

/-! ## loader.py (the `DataBundle` that reaches the solver core) -/

/-- The loaded data set (`loader.DataBundle`); sickness days are day
numbers, preferences are omitted (not consumed by the embedded code). -/
structure DataBundle where
  flights : List Flight
  crew : List Crew
  rules : Rules
  sickness_days : List (String × List Int)

/-- Model of the `flights_by_id` dict. -/
def flights_by_id (b : DataBundle) (fid : String) : Option Flight :=
  b.flights.find? (fun f => f.flight_id == fid)

/-- Model of the `crew_by_id` dict. -/
def crew_by_id (b : DataBundle) (cid : String) : Option Crew :=
  b.crew.find? (fun c => c.crew_id == cid)

/-- Distinct operating days of the flight set, sorted
(`loader`: `sorted({f.dep_dt.date().isoformat() for f in flights})`). -/
def operating_days (b : DataBundle) : List Int :=
  List.insertionSort (· ≤ ·) ((b.flights.map (fun f => date_of f.dep_dt)).dedup)

/-- Model of `bundle.sickness_days.get(crew_id, set())`. -/
def sick_days_of (b : DataBundle) (cid : String) : List Int :=
  match b.sickness_days.find? (fun p => p.1 == cid) with
  | some p => p.2
  | none => []

/-! ## eligibility.py -/

/-- One required seat on a flight (`eligibility.RoleSlot`). -/
structure RoleSlot where
  flight_id : String
  role : String
  slot_index : Nat
deriving DecidableEq, Repr

/-- An eligible (crew, flight, role, slot) tuple; decision-variable key. -/
abbrev Key := String × String × String × Nat

/-- Expand each flight's seat demand into role slots, in the fixed role
order Captain, FO, SC, CC (`eligibility.build_role_slots`). -/
def build_role_slots (b : DataBundle) : List RoleSlot :=
  b.flights.flatMap (fun f =>
    ((List.range f.needed_captains).map (fun i => RoleSlot.mk f.flight_id "Captain" i))
    ++ ((List.range f.needed_fo).map (fun i => RoleSlot.mk f.flight_id "FO" i))
    ++ ((List.range f.needed_sc).map (fun i => RoleSlot.mk f.flight_id "SC" i))
    ++ ((List.range f.needed_cc).map (fun i => RoleSlot.mk f.flight_id "CC" i)))

/-- Per-flight duty minutes recorded by the eligibility builder:
`max(1, int((arr - dep).total_seconds() // 60))`. -/
def minutes_of_flight (f : Flight) : Int := max 1 ((f.arr_dt - f.dep_dt) / 60)

/-- Operating day of a flight, `eligibility.day_by_flight`. -/
def day_of_flight (f : Flight) : Int := date_of f.dep_dt

/-- Day-level sickness check `eligibility._crew_can_work_that_day`
(static leave/training/sick is already filtered out by the loader). -/
def crew_can_work_that_day (cid : String) (day : Int) (b : DataBundle) : Bool :=
  ! ((sick_days_of b cid).contains day)

/-- Role match `eligibility._crew_role_matches`. -/
def crew_role_matches (slot_role : String) (crew_role_raw : String) : Bool :=
  role_key crew_role_raw == slot_role

/-- Aircraft qualification `eligibility._crew_qualified_for`. -/
def crew_qualified_for (ac_type : String) (qualified_types : String) : Bool :=
  (split_pipe qualified_types).contains ac_type

/-- The eligible tuples contributed by one role slot: the roster filtered
by role match, aircraft qualification and day-level sickness
(inner loop of `eligibility.build_eligibility`; the flight lookup cannot
fail for slots produced by `build_role_slots`). -/
def eligible_for_slot (b : DataBundle) (slot : RoleSlot) : List Key :=
  match flights_by_id b slot.flight_id with
  | none => []
  | some f =>
    (b.crew.filter (fun c =>
      crew_role_matches slot.role c.role
      && crew_qualified_for f.aircraft_type c.qualified_types
      && crew_can_work_that_day c.crew_id (day_of_flight f) b)).map
      (fun c => (c.crew_id, slot.flight_id, slot.role, slot.slot_index))

/-- The full eligible relation, `eligibility.build_eligibility`. -/
def build_eligibility (b : DataBundle) : List Key :=
  (build_role_slots b).flatMap (eligible_for_slot b)

/-! ## constraints.py — `build_model_with_constraints`

The builder creates one boolean decision variable per distinct eligible
tuple (a Python dict, so duplicates collapse) and posts the constraint
families below.  A candidate solution is a boolean valuation `sel` of
the keys; `exact_model_sat` states that every posted constraint holds.
The base-return penalty variables and the overtime variables are not
modelled: they are fresh integer variables bounded from below, so they
constrain no decision variable and are satisfiable in every model. -/

/-- The decision-variable key set: the eligible tuples with duplicates
collapsed (the builder stores them in a dict). -/
def xkeys (b : DataBundle) : List Key := (build_eligibility b).dedup

/-- Decision-variable keys matching one role slot. -/
def slot_keys (b : DataBundle) (rs : RoleSlot) : List Key :=
  (xkeys b).filter (fun k =>
    k.2.1 == rs.flight_id && k.2.2.1 == rs.role && k.2.2.2 == rs.slot_index)

/-- Coverage: for each role slot, the sum of its variables equals one
(an empty sum makes the model infeasible — the constraint is still posted). -/
def coverage_sat (b : DataBundle) (sel : Key → Bool) : Bool :=
  (build_role_slots b).all (fun rs => (slot_keys b rs).countP sel == 1)

/-- Keys of one (crew, flight) pair. -/
def pair_keys (b : DataBundle) (cid fid : String) : List Key :=
  (xkeys b).filter (fun k => k.1 == cid && k.2.1 == fid)

/-- At most one seat per (crew, flight): the builder posts, for every
crew id of the roster and every flight that crew has variables on, that
the pair's variables sum to at most one. -/
def amo_sat (b : DataBundle) (sel : Key → Bool) : Bool :=
  (b.crew.map (fun c => c.crew_id)).all (fun cid =>
    (xkeys b).all (fun k =>
      !(k.1 == cid) || ((pair_keys b cid k.2.1).countP sel ≤ 1)))

/-- The SCCM-capable variables of a flight: any SC seat, or a CC seat
held by SCCM-certified crew with enough experience. -/
def sccm_vars (b : DataBundle) (f : Flight) : List Key :=
  (xkeys b).filter (fun k =>
    k.2.1 == f.flight_id &&
      (k.2.2.1 == "SC" ||
        (k.2.2.1 == "CC" &&
          (match crew_by_id b k.1 with
           | some cr => cr.sccm_certified && cr.experience_months ≥ b.rules.sccm_experience_min_months
           | none => false))))

/-- Composition: flights with more than one cabin-crew seat need at
least one SCCM (two on ultra-long-haul flights), but only when feasible
variables exist. -/
def comp_sat (b : DataBundle) (sel : Key → Bool) : Bool :=
  b.flights.all (fun f =>
    !(f.needed_cc + f.needed_sc > 1) ||
    (let sv := sccm_vars b f
     sv.isEmpty ||
       (let req : Int :=
          if ((f.duration_minutes : ℚ) / 60 > b.rules.ulh_ft_threshold_hours)
          then max 1 b.rules.min_sccm_ulh else 1
        decide ((sv.countP sel : Int) ≥ req))))

/-- End of the optional interval attached to a variable: flight start
plus duration plus turnaround padding. -/
def interval_end (b : DataBundle) (f : Flight) : Int :=
  f.dep_dt + ((f.arr_dt - f.dep_dt) + b.rules.turnaround_minutes * 60)

/-- Per-crew `AddNoOverlap`: any two selected intervals of one crew are
disjoint. -/
def no_overlap_sat (b : DataBundle) (sel : Key → Bool) : Bool :=
  (xkeys b).all (fun k1 => (xkeys b).all (fun k2 =>
    !(!(k1 == k2) && k1.1 == k2.1 && sel k1 && sel k2) ||
    (match flights_by_id b k1.2.1, flights_by_id b k2.2.1 with
     | some f1, some f2 =>
       decide (interval_end b f1 ≤ f2.dep_dt) || decide (interval_end b f2 ≤ f1.dep_dt)
     | _, _ => true)))

/-- A crew's distinct potential flights, in first-occurrence order of the
variable dict and then sorted by departure time (the `unique_flights` /
`sorted_flights` computation of the rest-constraint loop; the continuity
loop builds the same list). -/
def sorted_crew_flights (b : DataBundle) (cid : String) : List Flight :=
  List.insertionSort (fun f g : Flight => f.dep_dt ≤ g.dep_dt)
    ((((xkeys b).filter (fun k => k.1 == cid)).map (fun k => k.2.1)).dedup.filterMap
      (flights_by_id b))

/-- Adjacent pairs (by departure) of a crew's potential flights whose
rest gap is below the minimum: exactly the pairs the builder makes
mutually exclusive. -/
def rest_pairs (b : DataBundle) (cid : String) : List (String × String) :=
  let sf := sorted_crew_flights b cid
  (sf.zip sf.tail).filterMap (fun p =>
    if p.2.dep_dt - p.1.arr_dt < b.rules.min_rest_hours_between_duties * 3600
    then some (p.1.flight_id, p.2.flight_id) else none)

/-- Minimum-rest constraints: for each crew with variables, for each
below-gap adjacent pair, every variable of the first flight excludes
every variable of the second. -/
def rest_sat (b : DataBundle) (sel : Key → Bool) : Bool :=
  (((xkeys b).map (fun k => k.1)).dedup).all (fun cid =>
    (rest_pairs b cid).all (fun p =>
      (pair_keys b cid p.1).all (fun k1 =>
        (pair_keys b cid p.2).all (fun k2 => !(sel k1 && sel k2)))))

/-- Adjacent pairs (by departure) of a crew's potential flights whose
stations mismatch (`_add_pilot_continuity_constraints`). -/
def continuity_pairs (b : DataBundle) (cid : String) : List (String × String) :=
  let sf := sorted_crew_flights b cid
  (sf.zip sf.tail).filterMap (fun p =>
    if p.1.arr_airport ≠ p.2.dep_airport
    then some (p.1.flight_id, p.2.flight_id) else none)

/-- Location continuity: mismatching adjacent potential flights are
mutually exclusive, for every roster crew id. -/
def continuity_sat (b : DataBundle) (sel : Key → Bool) : Bool :=
  ((b.crew.map (fun c => c.crew_id)).dedup).all (fun cid =>
    (continuity_pairs b cid).all (fun p =>
      (pair_keys b cid p.1).all (fun k1 =>
        (pair_keys b cid p.2).all (fun k2 => !(sel k1 && sel k2)))))

/-- A crew's variables on flights meeting the night window test. -/
def night_keys (b : DataBundle) (cid : String) : List Key :=
  (xkeys b).filter (fun k =>
    k.1 == cid &&
      (match flights_by_id b k.2.1 with
       | some f => in_night_window f.dep_dt f.arr_dt b.rules.night_window_sec.1 b.rules.night_window_sec.2
       | none => false))

/-- Weekly night-duty limit: the sum of a crew's night variables is
bounded (posted only when the list is non-empty). -/
def night_weekly_sat (b : DataBundle) (sel : Key → Bool) : Bool :=
  ((b.crew.map (fun c => c.crew_id)).dedup).all (fun cid =>
    (night_keys b cid).isEmpty ||
      decide (((night_keys b cid).countP sel : Int) ≤ b.rules.max_overnight_duties_per_week))

/-- A crew's night assignments paired with their flights, sorted by
departure time. -/
def sorted_night_assignments (b : DataBundle) (cid : String) : List (Flight × Key) :=
  List.insertionSort (fun p q : Flight × Key => p.1.dep_dt ≤ q.1.dep_dt)
    ((night_keys b cid).filterMap (fun k => (flights_by_id b k.2.1).map (fun f => (f, k))))

/-- The run-collection of the consecutive-night loop: walk forward while
each flight's date matches the expected date (which then advances by one
day), consuming at most `fuel` entries. -/
def collect_run (fuel : Nat) (cur : Int) : List (Flight × Key) → List Key
  | [] => []
  | p :: rest =>
    match fuel with
    | 0 => []
    | Nat.succ fl =>
      if date_of p.1.dep_dt = cur then
        p.2 :: collect_run fl (date_of p.1.dep_dt + 1) rest
      else []

/-- Consecutive-night limit: over each window start, if the collected
consecutive run reaches the cap, its first `cap + 1` variables sum to at
most the cap. -/
def night_consec_sat (b : DataBundle) (sel : Key → Bool) : Bool :=
  let K := b.rules.max_consecutive_night_duties
  ((b.crew.map (fun c => c.crew_id)).dedup).all (fun cid =>
    let na := sorted_night_assignments b cid
    !(na.length ≥ K) ||
      (List.range (na.length - K + 1)).all (fun i =>
        let rest := na.drop i
        let cur := match rest with | [] => 0 | p :: _ => date_of p.1.dep_dt
        let run := collect_run (min (K + 1) (na.length - i)) cur rest
        !(run.length ≥ K) || ((run.take (K + 1)).countP sel ≤ K)))

/-- Duty minutes the builder attaches to an assignment:
`int(max(1, elig.minutes_by_flight[f_id]))` (lookups cannot fail for
keys of the eligible relation). -/
def assign_minutes (b : DataBundle) (fid : String) : Int :=
  max 1 (match flights_by_id b fid with
         | some f => minutes_of_flight f
         | none => 0)

/-- Operating day recorded for a flight id (`elig.day_by_flight`). -/
def day_by_fid (b : DataBundle) (fid : String) : Int :=
  match flights_by_id b fid with
  | some f => day_of_flight f
  | none => 0

/-- All keys of one crew. -/
def crew_keys (b : DataBundle) (cid : String) : List Key :=
  (xkeys b).filter (fun k => k.1 == cid)

/-- Total assigned minutes of a crew under a valuation (the `tot`
variable, which the builder pins to this sum). -/
def total_minutes (b : DataBundle) (sel : Key → Bool) (cid : String) : Int :=
  ((crew_keys b cid).map (fun k => if sel k then assign_minutes b k.2.1 else 0)).sum

/-- Keys of one crew on one operating day. -/
def day_keys (b : DataBundle) (cid : String) (d : Int) : List Key :=
  (crew_keys b cid).filter (fun k => day_by_fid b k.2.1 == d)

/-- Assigned minutes of a crew on a day (the `dvar` variable). -/
def day_minutes (b : DataBundle) (sel : Key → Bool) (cid : String) (d : Int) : Int :=
  ((day_keys b cid d).map (fun k => if sel k then assign_minutes b k.2.1 else 0)).sum

/-- Selected-flight count of a crew on a day (the `fcnt` variable). -/
def day_flight_count (b : DataBundle) (sel : Key → Bool) (cid : String) (d : Int) : Nat :=
  (day_keys b cid d).countP sel

/-- The dep-in-WOCL test of the daily loop (written out on the departure
time-of-day, wrap-around included). -/
def dep_in_wocl (b : DataBundle) (f : Flight) : Bool :=
  let dt := time_of_day f.dep_dt
  let ws := b.rules.wocl_window_sec.1
  let we := b.rules.wocl_window_sec.2
  (decide (ws ≤ we) && decide (ws ≤ dt ∧ dt < we)) ||
    (decide (ws > we) && decide (dt ≥ ws ∨ dt < we))

/-- Count of selected day keys whose flight departs inside WOCL
(the `start_wocl_count` variable). -/
def start_wocl_count (b : DataBundle) (sel : Key → Bool) (cid : String) (d : Int) : Nat :=
  ((day_keys b cid d).filter (fun k =>
    match flights_by_id b k.2.1 with
    | some f => dep_in_wocl b f
    | none => false)).countP sel

/-- Count of selected day keys whose flight overlaps WOCL
(the `overlap_wocl_count` variable, via `in_night_window`). -/
def overlap_wocl_count (b : DataBundle) (sel : Key → Bool) (cid : String) (d : Int) : Nat :=
  ((day_keys b cid d).filter (fun k =>
    match flights_by_id b k.2.1 with
    | some f => in_night_window f.dep_dt f.arr_dt b.rules.wocl_window_sec.1 b.rules.wocl_window_sec.2
    | none => false)).countP sel

/-- One admissible valuation of the three reified FDP-bracket booleans:
exactly one is set, each binds `dvar` to its band, and each caps the
landing count (6 / 3 / 1). -/
def bracket_choice_ok (dv : Int) (fc : Nat) (b1 b2 b3 : Bool) : Bool :=
  ((cond b1 1 0) + (cond b2 1 0) + (cond b3 1 0) == (1 : Nat)) &&
  (!b1 || decide (dv ≤ 480)) && (b1 || decide (dv ≥ 481)) &&
  (!b2 || (decide (dv ≥ 481) && decide (dv ≤ 660))) &&
  (b3 || decide (dv ≤ 660)) && (!b3 || decide (dv ≥ 661)) &&
  (!b1 || fc ≤ 6) && (!b2 || fc ≤ 3) && (!b3 || fc ≤ 1)

/-- Satisfiability of the bracket constraints: some valuation of the
three booleans passes. -/
def bracket_sat (dv : Int) (fc : Nat) : Bool :=
  [false, true].any (fun b1 => [false, true].any (fun b2 => [false, true].any (fun b3 =>
    bracket_choice_ok dv fc b1 b2 b3)))

/-- One admissible valuation of the two reified WOCL indicators, with
the induced reduced daily caps. -/
def wocl_choice_ok (sw ow : Nat) (dv cap rf rh : Int) (i1 i2 : Bool) : Bool :=
  (!i1 || sw ≥ 1) && (i1 || sw == 0) &&
  (!i2 || ow ≥ 1) && (i2 || ow == 0) &&
  (!i1 || decide (dv ≤ cap - rf)) && (!i2 || decide (dv ≤ cap - rh))

/-- Satisfiability of the WOCL indicator constraints. -/
def wocl_sat (sw ow : Nat) (dv cap rf rh : Int) : Bool :=
  [false, true].any (fun i1 => [false, true].any (fun i2 =>
    wocl_choice_ok sw ow dv cap rf rh i1 i2))

/-- The per-crew, per-day block of the builder: role daily cap, flat
landing cap, FDP brackets, and WOCL-reduced caps. -/
def daily_sat (b : DataBundle) (sel : Key → Bool) : Bool :=
  b.crew.all (fun c => (operating_days b).all (fun d =>
    let cap := b.rules.daily_cap_for_role (role_key c.role) * 60
    let dv := day_minutes b sel c.crew_id d
    let fc := day_flight_count b sel c.crew_id d
    let rf := min cap b.rules.wocl_len_minutes
    let rh := min cap (b.rules.wocl_len_minutes / 2)
    decide (dv ≤ cap) && (fc ≤ 6) && bracket_sat dv fc &&
      wocl_sat (start_wocl_count b sel c.crew_id d) (overlap_wocl_count b sel c.crew_id d)
        dv cap rf rh))

/-- The hard cumulative 7-day flight-time cap on each crew's total. -/
def ft7_sat (b : DataBundle) (sel : Key → Bool) : Bool :=
  b.crew.all (fun c =>
    decide (total_minutes b sel c.crew_id ≤ b.rules.flight_time_limits_hours_7_days * 60))

/-- A valuation satisfies every constraint `build_model_with_constraints`
posts on the decision variables. -/
def exact_model_sat (b : DataBundle) (sel : Key → Bool) : Bool :=
  coverage_sat b sel && amo_sat b sel && comp_sat b sel && no_overlap_sat b sel &&
    rest_sat b sel && night_weekly_sat b sel && night_consec_sat b sel &&
    daily_sat b sel && ft7_sat b sel && continuity_sat b sel

/-! ## genetic_optimizer.py -/

namespace GA

/-- Crew record of the genetic engine (`genetic_optimizer.Crew`):
qualified types already parsed into a list, availability precomputed. -/
structure Crew where
  crew_id : String
  name : String
  role : String
  base : String
  qualified_types : List String
  weekly_max_duty_hrs : Int
  available : Bool
  sccm_certified : Bool
  experience_months : Int
deriving DecidableEq, Repr

/-- An assignment triple (`genetic_optimizer.Assignment`). -/
structure Assignment where
  crew_id : String
  flight_id : String
  role : String
deriving DecidableEq, Repr

/-- The optimizer state the embedded operations read
(`GeneticOptimizer` after `load_data` / `set_weights`): entity lists,
objective weights, and the stability baseline. -/
structure Optimizer where
  flights : List Flight
  crew : List Crew
  w_ot : ℚ := 100
  w_fair : ℚ := 10
  w_pref : ℚ := 1
  w_base : ℚ := 50
  w_continuity : ℚ := 75
  w_stability : ℚ := 300
  baseline_pairs : List (String × String × String) := []
  exclude_crew : List String := []
  exclude_flights : List String := []

/-- Model of `self.flights_by_id`. -/
def flightsById (o : Optimizer) (fid : String) : Option Flight :=
  o.flights.find? (fun f => f.flight_id == fid)

/-- Model of `self.crew_by_id`. -/
def crewById (o : Optimizer) (cid : String) : Option Crew :=
  o.crew.find? (fun c => c.crew_id == cid)

/-- A baseline entry as handed to `set_baseline`: a dict whose fields
are read with `.get` and may be absent. -/
structure BaselineRec where
  crew_id : Option String
  flight_id : Option String
  role : Option String
deriving DecidableEq, Repr

/-- Python falsiness of an optional string (`not x`): absent or empty. -/
def falsy : Option String → Bool
  | none => true
  | some s => s == ""

/-- `GeneticOptimizer.set_baseline`: keep the complete baseline triples
whose crew is not excluded and whose flight is not excluded; the result
is a set (modelled as a deduplicated list). -/
def set_baseline (o : Optimizer) (baseline : List BaselineRec)
    (exclude_crew exclude_flights : List String) : Optimizer :=
  let pairs := (baseline.filterMap (fun a =>
    if falsy a.crew_id || falsy a.flight_id || falsy a.role then none
    else match a.crew_id, a.flight_id, a.role with
      | some c, some f, some r =>
        if exclude_crew.contains c || exclude_flights.contains f then none
        else some (c, f, r)
      | _, _, _ => none)).dedup
  { o with baseline_pairs := pairs,
           exclude_crew := exclude_crew.dedup,
           exclude_flights := exclude_flights.dedup }

/-- `GeneticOptimizer._calculate_stability_bonus`: fraction of baseline
triples present among the solution's triples. -/
def calculate_stability_bonus (o : Optimizer) (solution : List Assignment) : ℚ :=
  if o.baseline_pairs.isEmpty then 0
  else
    let sol_pairs := (solution.map (fun a => (a.crew_id, a.flight_id, a.role))).dedup
    let kept := (sol_pairs.filter (fun p => o.baseline_pairs.contains p)).length
    (kept : ℚ) / (max 1 o.baseline_pairs.length : ℚ)

/-- Total required positions over all flights
(`_calculate_coverage_score`'s denominator). -/
def total_required_positions (o : Optimizer) : Nat :=
  (o.flights.map (fun f => f.needed_captains + f.needed_fo + f.needed_sc + f.needed_cc)).sum

/-- `GeneticOptimizer._calculate_coverage_score` (guarded against the
zero denominator, which in the source raises and is caught by
`evaluate_fitness`). -/
def coverage_score (o : Optimizer) (solution : List Assignment) : ℚ :=
  min 1 ((solution.length : ℚ) / (total_required_positions o : ℚ))

/-- Insertion-ordered accumulation of hours per crew id (a Python dict
updated with `get(..., 0) + h`). -/
def add_hours : List (String × ℚ) → String → ℚ → List (String × ℚ)
  | [], cid, h => [(cid, h)]
  | (c, v) :: rest, cid, h =>
    if c == cid then (c, v + h) :: rest else (c, v) :: add_hours rest cid h

/-- The `crew_hours` dict built by the overtime/fairness helpers: flight
hours summed per crew id, in first-occurrence order.  (The source
resolves each lookup with `next(...)`, which raises on a miss and makes
`evaluate_fitness` return −∞; `evaluate_fitness` below only reaches this
computation when every lookup resolves, so skipping misses here is
equivalent.) -/
def crew_hours (o : Optimizer) (solution : List Assignment) : List (String × ℚ) :=
  solution.foldl (fun acc a =>
    match flightsById o a.flight_id with
    | some f => add_hours acc a.crew_id (((f.arr_dt - f.dep_dt : Int) : ℚ) / 3600)
    | none => acc) []

/-- `GeneticOptimizer._calculate_overtime_penalty`: hours beyond each
crew's weekly cap, summed. -/
def calculate_overtime_penalty (o : Optimizer) (solution : List Assignment) : ℚ :=
  ((crew_hours o solution).map (fun p =>
    match crewById o p.1 with
    | some cr => if p.2 > (cr.weekly_max_duty_hrs : ℚ) then p.2 - (cr.weekly_max_duty_hrs : ℚ) else 0
    | none => 0)).sum

/-- `GeneticOptimizer._calculate_fairness_score`; `sq` stands for the
square root used by `numpy.std`, applied to the population variance. -/
def calculate_fairness_score (o : Optimizer) (sq : ℚ → ℚ) (solution : List Assignment) : ℚ :=
  let ch := crew_hours o solution
  if ch.isEmpty then 0
  else
    let hs := ch.map (fun p => p.2)
    let mean := hs.sum / (hs.length : ℚ)
    let std := sq ((hs.map (fun x => (x - mean) ^ 2)).sum / (hs.length : ℚ))
    if mean = 0 then 1 else max 0 (1 - std / mean)

/-- The crew ids that own a schedule in
`_calculate_continuity_and_base_penalties` (a dict key appears when the
flight lookup succeeds), in first-occurrence order. -/
def schedule_crews (o : Optimizer) (solution : List Assignment) : List String :=
  ((solution.filter (fun a => (flightsById o a.flight_id).isSome)).map
    (fun a => a.crew_id)).dedup

/-- One crew's schedule: its resolvable flights in solution order,
sorted by departure time. -/
def crew_schedule (o : Optimizer) (solution : List Assignment) (cid : String) : List Flight :=
  List.insertionSort (fun f g : Flight => f.dep_dt ≤ g.dep_dt)
    ((solution.filter (fun a => a.crew_id == cid)).filterMap
      (fun a => flightsById o a.flight_id))

/-- Continuity penalty: 100 per adjacent station mismatch in each crew's
sorted schedule. -/
def continuity_penalty (o : Optimizer) (solution : List Assignment) : ℚ :=
  ((schedule_crews o solution).map (fun cid =>
    let fs := crew_schedule o solution cid
    ((fs.zip fs.tail).countP (fun p => !(p.1.arr_airport == p.2.dep_airport)) : ℚ) * 100)).sum

/-- The last flight of a day group under Python
`max(day_flights, key=lambda f: f.arr_dt)` (first maximum wins). -/
def last_by_arr : List Flight → Option Flight
  | [] => none
  | f :: rest => some (rest.foldl (fun best g => if g.arr_dt > best.arr_dt then g else best) f)

/-- Base-return penalty: one per day a crew's last flight does not
arrive at the crew's base (crew lookup misses are skipped by `.get`). -/
def base_return_penalty (o : Optimizer) (solution : List Assignment) : ℚ :=
  ((schedule_crews o solution).map (fun cid =>
    match crewById o cid with
    | none => (0 : ℚ)
    | some cr =>
      let fs := crew_schedule o solution cid
      (((fs.map (fun f => date_of f.dep_dt)).dedup.countP (fun d =>
        match last_by_arr (fs.filter (fun f => date_of f.dep_dt == d)) with
        | some lf => !(lf.arr_airport == cr.base)
        | none => false)) : ℚ))).sum

/-- `GeneticOptimizer.evaluate_fitness`.  `none` models the float −∞
returned for an empty individual, and for the caught exceptions of the
helper lookups (`next` misses, zero slot total). -/
def evaluate_fitness (o : Optimizer) (sq : ℚ → ℚ) (solution : List Assignment) : Option ℚ :=
  if solution.isEmpty then none
  else if total_required_positions o == 0 then none
  else if solution.any (fun a => (crewById o a.crew_id).isNone || (flightsById o a.flight_id).isNone)
    then none
  else if coverage_score o solution ≤ 0 then none
  else some (max
    (1000 * coverage_score o solution
      - (1/10) * o.w_ot * calculate_overtime_penalty o solution
      + (1/10) * o.w_fair * calculate_fairness_score o sq solution
      - (1/100) * o.w_continuity * continuity_penalty o solution
      - (1/100) * o.w_base * base_return_penalty o solution
      + o.w_stability * calculate_stability_bonus o solution)
    (1/10))

/-- Modelled from the spec: the fitness combination as the specification
states it, identical to `evaluate_fitness` except that the weighted
fairness bonus is SUBTRACTED (`− k2·fairness_bonus`).  Kept for
comparison with the source's evaluator. -/
def spec_fitness_minus_fairness (o : Optimizer) (sq : ℚ → ℚ) (solution : List Assignment) :
    Option ℚ :=
  if solution.isEmpty then none
  else if total_required_positions o == 0 then none
  else if solution.any (fun a => (crewById o a.crew_id).isNone || (flightsById o a.flight_id).isNone)
    then none
  else if coverage_score o solution ≤ 0 then none
  else some (max
    (1000 * coverage_score o solution
      - (1/10) * o.w_ot * calculate_overtime_penalty o solution
      - (1/10) * o.w_fair * calculate_fairness_score o sq solution
      - (1/100) * o.w_continuity * continuity_penalty o solution
      - (1/100) * o.w_base * base_return_penalty o solution
      + o.w_stability * calculate_stability_bonus o solution)
    (1/10))

/-- The distinct (crew, flight) pairs of a solution, in first-occurrence
order (`by_cf` keys / the `seen` set of `_repair_solution_continuity`). -/
def cf_pairs (solution : List Assignment) : List (String × String) :=
  (solution.map (fun a => (a.crew_id, a.flight_id))).dedup

/-- A crew's distinct resolvable flights of a solution
(`flights_for_crew[crew_id]`), in first-occurrence order. -/
def flights_for_crew (o : Optimizer) (solution : List Assignment) (cid : String) : List Flight :=
  ((cf_pairs solution).filter (fun p => p.1 == cid)).filterMap (fun p => flightsById o p.2)

/-- The chain walk of the repair operator: keep a flight when there is
no kept predecessor or its departure airport equals the last kept
arrival airport; otherwise drop it and keep walking. -/
def chain_keep (last_arr : Option String) : List Flight → List Flight
  | [] => []
  | f :: rest =>
    match last_arr with
    | none => f :: chain_keep (some f.arr_airport) rest
    | some la =>
      if f.dep_airport = la then f :: chain_keep (some f.arr_airport) rest
      else chain_keep (some la) rest

/-- The flights the repair operator keeps for one crew: chain walk over
the departure-sorted distinct flights. -/
def kept_flights (o : Optimizer) (solution : List Assignment) (cid : String) : List Flight :=
  chain_keep none
    (List.insertionSort (fun f g : Flight => f.dep_dt ≤ g.dep_dt)
      (flights_for_crew o solution cid))

/-- `GeneticOptimizer._repair_solution_continuity`: rebuild the solution
keeping exactly the assignments whose (crew, flight) pair survives the
chain walk. -/
def repair_solution_continuity (o : Optimizer) (solution : List Assignment) : List Assignment :=
  if solution.isEmpty then solution
  else
    ((cf_pairs solution).filter (fun p =>
      ((kept_flights o solution p.1).map (fun f => f.flight_id)).contains p.2)).flatMap
      (fun p => solution.filter (fun a => a.crew_id == p.1 && a.flight_id == p.2))

/-- The per-gene pass of `GeneticOptimizer.mutate`: at each index where
the mutation coin (`dec`) fires, replace the crew with an alternative of
the same role (available, type-qualified, not the incumbent) chosen by
the random stream `pick`. -/
def mutate_genes (o : Optimizer) (dec : Nat → Bool) (pick : Nat → Nat)
    (solution : List Assignment) : List Assignment :=
  solution.enum.map (fun ia =>
    if dec ia.1 then
      match flightsById o ia.2.flight_id with
      | none => ia.2
      | some fl =>
        let alts := o.crew.filter (fun c =>
          c.role == ia.2.role && c.available && c.qualified_types.contains fl.aircraft_type
            && !(c.crew_id == ia.2.crew_id))
        match alts with
        | [] => ia.2
        | e :: _ =>
          Assignment.mk (alts.getD (pick ia.1 % alts.length) e).crew_id ia.2.flight_id ia.2.role
    else ia.2)

/-- `GeneticOptimizer.mutate`: the per-gene pass followed by the
mandatory continuity repair. -/
def mutate (o : Optimizer) (dec : Nat → Bool) (pick : Nat → Nat)
    (solution : List Assignment) : List Assignment :=
  repair_solution_continuity o (mutate_genes o dec pick solution)

/-- Role-grouped available crew of `create_random_solution`. -/
def captains_of (o : Optimizer) : List Crew :=
  o.crew.filter (fun c => (c.role == "Captain" || c.role == "CPT") && c.available)

/-- Available first officers. -/
def first_officers_of (o : Optimizer) : List Crew :=
  o.crew.filter (fun c => (c.role == "First Officer" || c.role == "FO") && c.available)

/-- Available senior cabin crew. -/
def senior_crew_of (o : Optimizer) : List Crew :=
  o.crew.filter (fun c =>
    (c.role == "Senior Crew" || c.role == "Senior Cabin" || c.role == "SC") && c.available)

/-- Available cabin crew. -/
def cabin_crew_of (o : Optimizer) : List Crew :=
  o.crew.filter (fun c => (c.role == "Cabin Crew" || c.role == "CC") && c.available)

/-- Fill `n` seats of one role on one flight: each seat draws uniformly
from the type-qualified pool (one random call per non-empty draw); empty
pools leave seats uncovered. -/
def choose_seats (seeds : Nat → Nat) (fid : String) (role_name : String)
    (pool : List Crew) : Nat → Nat → List Assignment × Nat
  | k, 0 => ([], k)
  | k, Nat.succ n =>
    match pool with
    | [] => ([], k)
    | e :: _ =>
      let c := pool.getD (seeds k % pool.length) e
      let r := choose_seats seeds fid role_name pool (k + 1) n
      (Assignment.mk c.crew_id fid role_name :: r.1, r.2)

/-- The flight loop of `create_random_solution`, threading the random
stream position. -/
def random_assignments (o : Optimizer) (seeds : Nat → Nat) :
    List Flight → Nat → List Assignment
  | [], _ => []
  | f :: rest, k =>
    let cap := choose_seats seeds f.flight_id "Captain"
      ((captains_of o).filter (fun c => c.qualified_types.contains f.aircraft_type)) k
      f.needed_captains
    let fo := choose_seats seeds f.flight_id "First Officer"
      ((first_officers_of o).filter (fun c => c.qualified_types.contains f.aircraft_type)) cap.2
      f.needed_fo
    let sc := choose_seats seeds f.flight_id "Senior Crew"
      ((senior_crew_of o).filter (fun c => c.qualified_types.contains f.aircraft_type)) fo.2
      f.needed_sc
    let cc := choose_seats seeds f.flight_id "Cabin Crew"
      ((cabin_crew_of o).filter (fun c => c.qualified_types.contains f.aircraft_type)) sc.2
      f.needed_cc
    cap.1 ++ fo.1 ++ sc.1 ++ cc.1 ++ random_assignments o seeds rest cc.2

/-- `GeneticOptimizer.create_random_solution`: acquit every role slot by
a uniform draw among qualified available crew, then repair continuity. -/
def create_random_solution (o : Optimizer) (seeds : Nat → Nat) : List Assignment :=
  repair_solution_continuity o (random_assignments o seeds o.flights 0)

end GA

/-! ## Specification-side definitions and observers -/

/-- Modelled from the spec: "some portion of the interval [dep, arr]
lies inside the local-time window" — there is an instant of the interval
whose time-of-day is in the window.  Used to compare the source's coarse
`in_night_window` test against the specified semantics. -/
def occupies_window (dep arr s e : Int) : Prop :=
  ∃ t : Int, dep ≤ t ∧ t ≤ arr ∧ window_mem (time_of_day t) s e = true

/-- Observer for solutions of the exact model: the distinct flights a
valuation assigns to one crew, sorted by departure time — consecutive
entries are that crew's "consecutive assignments by departure time". -/
def selected_flights_sorted (b : DataBundle) (sel : Key → Bool) (cid : String) : List Flight :=
  List.insertionSort (fun f g : Flight => f.dep_dt ≤ g.dep_dt)
    ((((xkeys b).filter (fun k => k.1 == cid && sel k)).map (fun k => k.2.1)).dedup.filterMap
      (flights_by_id b))

/-! ## Concrete test data -/

/-- A representative rules configuration (the defaults of
`dgca_rules.json`): 12h minimum rest, 45-minute turnaround, night window
22:00–05:00, WOCL 02:00–06:00. -/
def rulesW : Rules :=
  { daily_max_duty_hrs := [("Captain", 10), ("First Officer", 10), ("Cabin", 11), ("Senior Cabin", 12)]
  , weekly_max_duty_hrs_default := 45
  , min_rest_hours_between_duties := 12
  , max_overnight_duties_per_week := 4
  , turnaround_minutes := 45
  , night_duty_window := (1320, 300)
  , max_consecutive_night_duties := 3
  , wocl_window := (120, 360)
  , flight_time_limits_hours_7_days := 40
  , sccm_experience_min_months := 12
  , min_sccm_ulh := 2
  , ulh_ft_threshold_hours := 11 }

/-- Morning flight X→Y, 08:00–09:00, one captain seat. -/
def flightA : Flight := Flight.mk "FA" "X" "Y" 28800 32400 "A320" 1 0 0 0

/-- Flight Y→Y, 09:30–09:50, one captain seat, different aircraft type. -/
def flightB : Flight := Flight.mk "FB" "Y" "Y" 34200 35400 "A321" 1 0 0 0

/-- Flight Y→Z, 10:00–11:00, one captain seat. -/
def flightC : Flight := Flight.mk "FC" "Y" "Z" 36000 39600 "A320" 1 0 0 0

/-- Captain qualified on both types. -/
def crewCP1 : Crew := Crew.mk "CP1" "P1" "Captain" "X" "A320|A321" none "Available" false 0

/-- Captain qualified on the A321 only. -/
def crewCP2 : Crew := Crew.mk "CP2" "P2" "Captain" "X" "A321" none "Available" false 0

/-- Three flights, two captains: CP1 can fly all three, CP2 only FB. -/
def bundleC1 : DataBundle := DataBundle.mk [flightA, flightB, flightC] [crewCP1, crewCP2] rulesW []

/-- The valuation assigning CP1 to FA and FC and CP2 to FB. -/
def selC1 : Key → Bool := fun k =>
  [(("CP1" : String), ("FA" : String), ("Captain" : String), (0 : Nat)),
   ("CP2", "FB", "Captain", 0), ("CP1", "FC", "Captain", 0)].contains k

/-- A one-flight bundle with an empty roster: its captain slot has no
eligible tuple. -/
def bundleInf : DataBundle := DataBundle.mk [flightA] [] rulesW []

/-- Flight X→Y needing one cabin crew. -/
def flightD : Flight := Flight.mk "FD" "X" "Y" 28800 32400 "A320" 0 0 0 1

/-- Cabin crew, qualified and Available. -/
def crewCC1 : Crew := Crew.mk "CC1" "S" "Cabin Crew" "X" "A320" none "Available" false 0

/-- One flight on day 0 and one otherwise-qualified cabin crew who is
sick on day 0. -/
def bundleC6 : DataBundle := DataBundle.mk [flightD] [crewCC1] rulesW [("CC1", [0])]

/-- Genetic-engine flight with a single captain seat, X→Y, 1 hour. -/
def gFlight1 : Flight := Flight.mk "F1" "X" "Y" 0 3600 "A" 1 0 0 0

/-- Genetic-engine flight with TWO captain seats on one flight. -/
def gFlight2 : Flight := Flight.mk "F2" "X" "Y" 0 3600 "A" 2 0 0 0

/-- A second genetic-engine flight whose departure breaks the chain
after `gFlight1` (Z ≠ Y). -/
def gFlight4 : Flight := Flight.mk "F4" "Z" "W" 7200 10800 "A" 1 0 0 0

/-- The only captain of the genetic test rosters; based at Y. -/
def gCrew1 : GA.Crew := GA.Crew.mk "C1" "N" "Captain" "Y" ["A"] 45 true false 0

/-- Optimizer with one one-seat flight and one captain (fitness test). -/
def oGA3 : GA.Optimizer := { flights := [gFlight1], crew := [gCrew1] }

/-- Optimizer with one two-captain flight and a single eligible captain. -/
def oC2 : GA.Optimizer := { flights := [gFlight2], crew := [gCrew1] }

/-- Optimizer holding two chain-breaking flights (repair test). -/
def oC4 : GA.Optimizer := { flights := [gFlight1, gFlight4], crew := [gCrew1] }

/-- A two-assignment individual whose second flight breaks continuity. -/
def solC4 : List GA.Assignment :=
  [GA.Assignment.mk "C1" "F1" "Captain", GA.Assignment.mk "C1" "F4" "Captain"]

/-- The full-coverage individual for the fitness test. -/
def solC3 : List GA.Assignment := [GA.Assignment.mk "C1" "F1" "Captain"]

/-- Square root stand-in that is exact at 0 (the only variance arising
in the concrete fitness evaluations). -/
def sqZero : ℚ → ℚ := fun _ => 0

/-- An optimizer with no data, used to exercise `set_baseline`. -/
def oEmpty : GA.Optimizer := { flights := [], crew := [] }

/-- Three baseline records: one valid, one with excluded crew, one with
a missing crew id. -/
def baseRecs : List GA.BaselineRec :=
  [GA.BaselineRec.mk (some "C1") (some "F1") (some "Captain"),
   GA.BaselineRec.mk (some "C2") (some "F2") (some "FO"),
   GA.BaselineRec.mk none (some "F3") (some "CC")]

/-! ## Helper lemmas -/

theorem assign_minutes_ge_one (b : DataBundle) (fid : String) : 1 ≤ assign_minutes b fid :=
  le_max_left 1 _

theorem countP_le_ite_sum (sel : Key → Bool) (m : Key → Int) (hm : ∀ k, 1 ≤ m k) :
    ∀ l : List Key, ((l.countP sel : Nat) : Int) ≤ (l.map (fun k => if sel k then m k else 0)).sum := by
  intro l
  induction l with
  | nil => simp
  | cons a t ih =>
    simp only [List.countP_cons, List.map_cons, List.sum_cons]
    by_cases h : sel a = true
    · simp only [h, if_true, if_pos]
      push_cast
      have := hm a
      linarith
    · simp only [h, if_false]
      simpa using ih

/-! ## C10 — recorded flight duration is at least one minute and every
assignment contributes strictly positive minutes -/

/-- C10: the eligibility builder records
`max(1, floor((arr − dep) minutes))` per flight, so the recorded
duration is at least one minute, and in the exact model each crew's
total and per-day duty-minute sums dominate the number of selected
assignments — every assignment contributes at least one minute. -/
theorem flight_minutes_positive_contribution :
    (∀ f : Flight, 1 ≤ minutes_of_flight f)
    ∧ (∀ (b : DataBundle) (sel : Key → Bool) (cid : String),
        (((crew_keys b cid).countP sel : Nat) : Int) ≤ total_minutes b sel cid)
    ∧ (∀ (b : DataBundle) (sel : Key → Bool) (cid : String) (d : Int),
        (((day_keys b cid d).countP sel : Nat) : Int) ≤ day_minutes b sel cid d) := by
  refine ⟨fun f => le_max_left 1 _, fun b sel cid => ?_, fun b sel cid d => ?_⟩
  · exact countP_le_ite_sum sel _ (fun k => assign_minutes_ge_one b k.2.1) _
  · exact countP_le_ite_sum sel _ (fun k => assign_minutes_ge_one b k.2.1) _

/-! ## C9 — role normalization is total with Captain as default -/

/-- C9: `role_key` always returns one of Captain / FO / SC / CC, and any
string whose stripped form is none of the recognized First Officer,
Senior Crew, or Cabin Crew spellings — the empty string and arbitrary
unknown names included — maps to Captain. -/
theorem role_key_total_default_captain :
    ∀ raw : String,
      (role_key raw = "Captain" ∨ role_key raw = "FO" ∨ role_key raw = "SC" ∨ role_key raw = "CC")
      ∧ (pystrip raw ∉ ["FO", "First Officer", "Senior Crew", "Senior Cabin Crew", "SC",
          "Junior Cabin Crew", "Cabin Crew", "CC"] → role_key raw = "Captain") := by
  intro raw
  constructor
  · unfold role_key
    dsimp only
    split_ifs <;> simp
  · intro h
    simp only [List.mem_cons, List.not_mem_nil, not_or, or_false] at h
    unfold role_key
    dsimp only
    split_ifs with g1 g2 g3
    · rcases g1 with g | g <;> tauto
    · rcases g2 with g | g | g <;> tauto
    · rcases g3 with g | g | g <;> tauto
    · rfl

/-- Witness for C9 at the unknown role string "Chief Pilot". -/
theorem role_key_total_default_captain_witness : role_key "Chief Pilot" = "Captain" :=
  (role_key_total_default_captain "Chief Pilot").2 (by decide)

/-! ## C8 — the night/WOCL membership test -/

/-- C8 counterexample: the interval 01:00–07:00 fully contains the
non-wrapping window 02:00–06:00, so some portion of it lies in the
window (02:00 itself does), yet `in_night_window` returns `false`. -/
theorem night_window_contained_window_missed :
    in_night_window 3600 25200 7200 21600 = false ∧
      ((3600 : Int) ≤ 7200 ∧ (7200 : Int) ≤ 25200 ∧ window_mem (time_of_day 7200) 7200 21600 = true) := by
  exact ⟨by decide, by decide, by decide, by decide⟩

/-- C8 (amended): `in_night_window` returns true exactly when an
endpoint's time-of-day lies in the window or the window wraps midnight
and the interval spans a date change; this is sound — whenever it
returns true some portion of `[dep, arr]` lies in the window — but not
complete for intervals containing a non-wrapping window with neither
endpoint inside it. -/
theorem in_night_window_characterization :
    ∀ dep arr s e : Int, dep ≤ arr → s < 86400 →
      (in_night_window dep arr s e = true → occupies_window dep arr s e)
      ∧ (in_night_window dep arr s e = true ↔
          (window_mem (time_of_day dep) s e = true ∨ window_mem (time_of_day arr) s e = true
            ∨ (s > e ∧ date_of dep ≠ date_of arr))) := by
  intro dep arr s e hda hs
  have hchar : in_night_window dep arr s e = true ↔
      (window_mem (time_of_day dep) s e = true ∨ window_mem (time_of_day arr) s e = true
        ∨ (s > e ∧ date_of dep ≠ date_of arr)) := by
    simp only [in_night_window, Bool.or_eq_true, Bool.and_eq_true, decide_eq_true_iff]
    tauto
  refine ⟨fun h => ?_, hchar⟩
  rcases hchar.mp h with h1 | h2 | ⟨hse, hdd⟩
  · exact ⟨dep, le_refl dep, hda, h1⟩
  · exact ⟨arr, hda, le_refl arr, h2⟩
  · refine ⟨86400 * date_of dep + 86399, ?_, ?_, ?_⟩
    · have h1 := Int.emod_lt_of_pos dep (by norm_num : (0 : Int) < 86400)
      have h2 := Int.ediv_add_emod dep 86400
      unfold date_of
      omega
    · have hmono : date_of dep ≤ date_of arr := Int.ediv_le_ediv (by norm_num) hda
      have hlt : date_of dep < date_of arr := lt_of_le_of_ne hmono hdd
      have h3 := Int.ediv_add_emod arr 86400
      have h4 := Int.emod_nonneg arr (by norm_num : (86400 : Int) ≠ 0)
      unfold date_of at *
      omega
    · have ht : time_of_day (86400 * date_of dep + 86399) = 86399 := by
        unfold time_of_day date_of
        omega
      rw [ht]
      unfold window_mem
      rw [if_pos hse]
      simp only [decide_eq_true_iff]
      left
      omega

/-- Witness for C8 on a wrapping window: a 23:00–01:00 flight against
the 22:00–05:00 night window is reported in-window, soundly. -/
theorem in_night_window_characterization_witness :
    in_night_window 82800 90000 79200 18000 = true ∧ occupies_window 82800 90000 79200 18000 :=
  ⟨by decide,
    (in_night_window_characterization 82800 90000 79200 18000 (by decide) (by decide)).1 (by decide)⟩

/-! ## C6 — day-level sickness removes eligibility -/

theorem mem_build_eligibility_iff (b : DataBundle) (cid fid : String) (fl : Flight)
    (hfl : flights_by_id b fid = some fl) (r : String) (s : Nat) :
    (cid, fid, r, s) ∈ build_eligibility b ↔
      (RoleSlot.mk fid r s ∈ build_role_slots b ∧
        ∃ c ∈ b.crew, c.crew_id = cid ∧ crew_role_matches r c.role = true ∧
          crew_qualified_for fl.aircraft_type c.qualified_types = true ∧
          crew_can_work_that_day cid (day_of_flight fl) b = true) := by
  unfold build_eligibility
  rw [List.mem_flatMap]
  constructor
  · rintro ⟨slot, hslot, hmem⟩
    unfold eligible_for_slot at hmem
    rcases hf2 : flights_by_id b slot.flight_id with _ | f2
    · rw [hf2] at hmem
      simp at hmem
    · rw [hf2] at hmem
      simp only [List.mem_map, List.mem_filter] at hmem
      obtain ⟨c, ⟨hc, hcond⟩, heq⟩ := hmem
      simp only [Prod.mk.injEq] at heq
      obtain ⟨e1, e2, e3, e4⟩ := heq
      obtain ⟨sf, sr, ss⟩ := slot
      simp only at e2 e3 e4
      subst e1 e2 e3 e4
      rw [hfl] at hf2
      injection hf2 with hf2
      subst hf2
      simp only [Bool.and_eq_true] at hcond
      exact ⟨hslot, c, hc, rfl, hcond.1.1, hcond.1.2, hcond.2⟩
  · rintro ⟨hslotmem, c, hc, hcid, hrm, hq, hwork⟩
    refine ⟨RoleSlot.mk fid r s, hslotmem, ?_⟩
    unfold eligible_for_slot
    rw [show flights_by_id b (RoleSlot.mk fid r s).flight_id = some fl from hfl]
    simp only [List.mem_map, List.mem_filter]
    refine ⟨c, ⟨hc, ?_⟩, by simp [hcid]⟩
    simp only [Bool.and_eq_true]
    exact ⟨⟨hrm, hq⟩, hcid ▸ hwork⟩

/-- C6: a crew whose sickness set contains a flight's operating day gets
no eligible tuple on any of that flight's slots, however qualified; on
days outside the sickness set, eligibility reduces to slot existence,
role match and aircraft qualification — sickness plays no part. -/
theorem sick_day_excludes_eligibility :
    ∀ (b : DataBundle) (cid fid : String) (fl : Flight), flights_by_id b fid = some fl →
      ((day_of_flight fl ∈ sick_days_of b cid →
          ∀ (r : String) (s : Nat), (cid, fid, r, s) ∉ build_eligibility b)
       ∧ (day_of_flight fl ∉ sick_days_of b cid →
          ∀ (r : String) (s : Nat),
            ((cid, fid, r, s) ∈ build_eligibility b ↔
              RoleSlot.mk fid r s ∈ build_role_slots b ∧
              ∃ c ∈ b.crew, c.crew_id = cid ∧ crew_role_matches r c.role = true ∧
                crew_qualified_for fl.aircraft_type c.qualified_types = true))) := by
  intro b cid fid fl hfl
  constructor
  · intro hsick r s hmem
    obtain ⟨_, c, _, hcid, _, _, hwork⟩ := (mem_build_eligibility_iff b cid fid fl hfl r s).mp hmem
    unfold crew_can_work_that_day at hwork
    simp at hwork
    exact hwork hsick
  · intro hok r s
    rw [mem_build_eligibility_iff b cid fid fl hfl r s]
    constructor
    · rintro ⟨h1, c, hc, hcid, hrm, hq, _⟩
      exact ⟨h1, c, hc, hcid, hrm, hq⟩
    · rintro ⟨h1, c, hc, hcid, hrm, hq⟩
      refine ⟨h1, c, hc, hcid, hrm, hq, ?_⟩
      unfold crew_can_work_that_day
      simp [hok]

/-- Witness for C6: the sick cabin crew of `bundleC6` is excluded from
the matching cabin-crew slot of the day's flight. -/
theorem sick_day_excludes_eligibility_witness :
    (("CC1", "FD", "CC", 0) : Key) ∉ build_eligibility bundleC6 :=
  (sick_day_excludes_eligibility bundleC6 "CC1" "FD" flightD (by decide)).1 (by decide) "CC" 0

/-! ## C4 — the continuity repair operator -/

instance flight_dep_le_total : IsTotal Flight (fun f g => f.dep_dt ≤ g.dep_dt) :=
  ⟨fun _ _ => Int.le_total _ _⟩

instance flight_dep_le_trans : IsTrans Flight (fun f g => f.dep_dt ≤ g.dep_dt) :=
  ⟨fun _ _ _ h1 h2 => le_trans h1 h2⟩

theorem chain_keep_sublist : ∀ (l : List Flight) (la : Option String),
    (GA.chain_keep la l).Sublist l := by
  intro l
  induction l with
  | nil => intro la; simp [GA.chain_keep]
  | cons f rest ih =>
    intro la
    cases la with
    | none =>
      show (f :: GA.chain_keep (some f.arr_airport) rest).Sublist (f :: rest)
      exact (ih (some f.arr_airport)).cons₂ f
    | some a =>
      by_cases h : f.dep_airport = a
      · show (if f.dep_airport = a then f :: GA.chain_keep (some f.arr_airport) rest
            else GA.chain_keep (some a) rest).Sublist (f :: rest)
        rw [if_pos h]
        exact (ih (some f.arr_airport)).cons₂ f
      · show (if f.dep_airport = a then f :: GA.chain_keep (some f.arr_airport) rest
            else GA.chain_keep (some a) rest).Sublist (f :: rest)
        rw [if_neg h]
        exact (ih (some a)).cons f

theorem chain_keep_head_dep : ∀ (l : List Flight) (a : String) (f₀ : Flight),
    (GA.chain_keep (some a) l).head? = some f₀ → f₀.dep_airport = a := by
  intro l
  induction l with
  | nil => intro a f₀ h; simp [GA.chain_keep] at h
  | cons f rest ih =>
    intro a f₀ h
    by_cases hd : f.dep_airport = a
    · rw [show GA.chain_keep (some a) (f :: rest) =
          f :: GA.chain_keep (some f.arr_airport) rest by simp [GA.chain_keep, hd]] at h
      injection h with h
      rw [← h]
      exact hd
    · rw [show GA.chain_keep (some a) (f :: rest) = GA.chain_keep (some a) rest by
          simp [GA.chain_keep, hd]] at h
      exact ih a f₀ h

theorem chain_keep_chain : ∀ (l : List Flight) (la : Option String),
    List.Chain' (fun f g : Flight => g.dep_airport = f.arr_airport) (GA.chain_keep la l) := by
  intro l
  induction l with
  | nil => intro la; simp [GA.chain_keep]
  | cons f rest ih =>
    intro la
    have hstep : List.Chain' (fun f g : Flight => g.dep_airport = f.arr_airport)
        (f :: GA.chain_keep (some f.arr_airport) rest) := by
      rw [List.chain'_cons']
      exact ⟨fun y hy => chain_keep_head_dep rest f.arr_airport y hy, ih (some f.arr_airport)⟩
    cases la with
    | none => exact hstep
    | some a =>
      by_cases h : f.dep_airport = a
      · rw [show GA.chain_keep (some a) (f :: rest) =
            f :: GA.chain_keep (some f.arr_airport) rest by simp [GA.chain_keep, h]]
        exact hstep
      · rw [show GA.chain_keep (some a) (f :: rest) = GA.chain_keep (some a) rest by
            simp [GA.chain_keep, h]]
        exact ih (some a)

/-- C4: the repair operator is a deterministic projection into
continuity-feasible space — it never adds or alters an assignment; per
crew the kept flights are departure-sorted and form an unbroken
arrival→departure chain; every repaired assignment's flight is among
its crew's kept flights; and `mutate` is exactly the per-gene pass
followed by this repair, so every mutated individual is repaired. -/
theorem repair_continuity_projection :
    ∀ (o : GA.Optimizer) (solution : List GA.Assignment),
      (∀ a : GA.Assignment, a ∈ GA.repair_solution_continuity o solution → a ∈ solution)
      ∧ (∀ cid : String,
          List.Sorted (fun f g : Flight => f.dep_dt ≤ g.dep_dt) (GA.kept_flights o solution cid)
          ∧ List.Chain' (fun f g : Flight => g.dep_airport = f.arr_airport)
              (GA.kept_flights o solution cid)
          ∧ (∀ a ∈ GA.repair_solution_continuity o solution, a.crew_id = cid →
              a.flight_id ∈ (GA.kept_flights o solution cid).map (fun f => f.flight_id)))
      ∧ (∀ (dec : Nat → Bool) (pick : Nat → Nat),
          GA.mutate o dec pick solution =
            GA.repair_solution_continuity o (GA.mutate_genes o dec pick solution)) := by
  intro o solution
  have hsub : ∀ a : GA.Assignment, a ∈ GA.repair_solution_continuity o solution → a ∈ solution := by
    intro a ha
    unfold GA.repair_solution_continuity at ha
    by_cases he : solution.isEmpty
    · rw [if_pos he] at ha
      exact ha
    · rw [if_neg he] at ha
      obtain ⟨p, _, hmem⟩ := List.mem_flatMap.mp ha
      exact (List.mem_filter.mp hmem).1
  refine ⟨hsub, fun cid => ⟨?_, ?_, ?_⟩, fun dec pick => rfl⟩
  · exact List.Pairwise.sublist (chain_keep_sublist _ _)
      (List.sorted_insertionSort (fun f g : Flight => f.dep_dt ≤ g.dep_dt) _)
  · exact chain_keep_chain _ _
  · intro a ha hcid
    unfold GA.repair_solution_continuity at ha
    by_cases he : solution.isEmpty
    · rw [if_pos he] at ha
      rw [List.isEmpty_iff.mp he] at ha
      simp at ha
    · rw [if_neg he] at ha
      obtain ⟨p, hp, hmem⟩ := List.mem_flatMap.mp ha
      obtain ⟨_, hcond⟩ := List.mem_filter.mp hmem
      simp only [Bool.and_eq_true, beq_iff_eq] at hcond
      obtain ⟨hpc, hpf⟩ := hcond
      obtain ⟨_, hkeep⟩ := List.mem_filter.mp hp
      have hm : p.2 ∈ (GA.kept_flights o solution p.1).map (fun f => f.flight_id) := by
        simpa using hkeep
      rw [← hpc, hcid] at hm
      rw [hpf]
      exact hm

/-- Witness for C4: in the two-flight chain-breaking individual
`solC4`, the repaired kept assignment is one of the original
assignments. -/
theorem repair_continuity_projection_witness :
    GA.Assignment.mk "C1" "F1" "Captain" ∈ solC4 :=
  (repair_continuity_projection oC4 solC4).1 (GA.Assignment.mk "C1" "F1" "Captain") (by decide)

/-! ## C7 — baseline retention and the stability fraction -/

theorem dedup_toFinset {α : Type} [DecidableEq α] (l : List α) : l.dedup.toFinset = l.toFinset := by
  ext x
  simp [List.mem_dedup]

theorem set_baseline_pairs_def (o : GA.Optimizer) (baseline : List GA.BaselineRec)
    (exc exf : List String) :
    (GA.set_baseline o baseline exc exf).baseline_pairs =
      (baseline.filterMap (fun a =>
        if GA.falsy a.crew_id || GA.falsy a.flight_id || GA.falsy a.role then none
        else match a.crew_id, a.flight_id, a.role with
          | some c, some f, some r =>
            if exc.contains c || exf.contains f then none
            else some (c, f, r)
          | _, _, _ => none)).dedup := rfl

theorem mem_set_baseline_pairs (o : GA.Optimizer) (baseline : List GA.BaselineRec)
    (exc exf : List String) (c f r : String) :
    (c, f, r) ∈ (GA.set_baseline o baseline exc exf).baseline_pairs ↔
      (GA.BaselineRec.mk (some c) (some f) (some r) ∈ baseline ∧
        c ≠ "" ∧ f ≠ "" ∧ r ≠ "" ∧ c ∉ exc ∧ f ∉ exf) := by
  rw [set_baseline_pairs_def, List.mem_dedup, List.mem_filterMap]
  constructor
  · rintro ⟨a, ha, hfn⟩
    obtain ⟨oc, ofl, orl⟩ := a
    cases oc with
    | none => simp [GA.falsy] at hfn
    | some cs =>
      cases ofl with
      | none => simp [GA.falsy] at hfn
      | some fs =>
        cases orl with
        | none => simp [GA.falsy] at hfn
        | some rs =>
          simp only [GA.falsy] at hfn
          split_ifs at hfn with h1 h2
          · simp only [Option.some.injEq, Prod.mk.injEq] at hfn
            obtain ⟨e1, e2, e3⟩ := hfn
            subst e1
            subst e2
            subst e3
            refine ⟨ha, ?_, ?_, ?_, ?_, ?_⟩
            · intro h
              exact h1 (by simp [h])
            · intro h
              exact h1 (by simp [h])
            · intro h
              exact h1 (by simp [h])
            · intro h
              exact h2 (by simp [h])
            · intro h
              exact h2 (by simp [h])
  · rintro ⟨ha, hc, hf, hr, hec, hef⟩
    refine ⟨GA.BaselineRec.mk (some c) (some f) (some r), ha, ?_⟩
    simp only [GA.falsy]
    rw [if_neg (by simp [hc, hf, hr])]
    rw [if_neg (by simp [hec, hef])]

theorem filter_contains_length_eq_inter_card (l : List (String × String × String))
    (bp : List (String × String × String)) :
    ((l.dedup.filter (fun p => bp.contains p)).length : ℚ) =
      ((l.toFinset ∩ bp.toFinset).card : ℚ) := by
  have hnd2 : (l.dedup.filter (fun p => bp.contains p)).Nodup :=
    (List.nodup_dedup l).filter _
  have hcard : (l.dedup.filter (fun p => bp.contains p)).toFinset.card =
      (l.dedup.filter (fun p => bp.contains p)).length :=
    List.toFinset_card_of_nodup hnd2
  rw [← hcard]
  congr 2
  rw [List.toFinset_filter, dedup_toFinset]
  ext x
  simp [Finset.mem_filter, Finset.mem_inter]

/-- C4-independent helper: the pairs stored by `set_baseline` carry no
duplicates. -/
theorem set_baseline_pairs_nodup (o : GA.Optimizer) (baseline : List GA.BaselineRec)
    (exc exf : List String) : (GA.set_baseline o baseline exc exf).baseline_pairs.Nodup := by
  rw [set_baseline_pairs_def]
  exact List.nodup_dedup _

/-- C7: `set_baseline` retains exactly the complete baseline triples
whose crew id avoids the excluded-crew set and whose flight id avoids
the excluded-flight set (absent or empty fields are dropped), and the
stability bonus of any solution is |solution triples ∩ retained
baseline| / |retained baseline| when the retained baseline is
non-empty, else 0. -/
theorem baseline_retention_and_stability_fraction :
    ∀ (o : GA.Optimizer) (baseline : List GA.BaselineRec) (exc exf : List String)
      (sol : List GA.Assignment),
      (∀ c f r : String,
        (c, f, r) ∈ (GA.set_baseline o baseline exc exf).baseline_pairs ↔
          (GA.BaselineRec.mk (some c) (some f) (some r) ∈ baseline ∧
            c ≠ "" ∧ f ≠ "" ∧ r ≠ "" ∧ c ∉ exc ∧ f ∉ exf))
      ∧ ((GA.set_baseline o baseline exc exf).baseline_pairs ≠ [] →
          GA.calculate_stability_bonus (GA.set_baseline o baseline exc exf) sol =
            (((sol.map (fun a => (a.crew_id, a.flight_id, a.role))).toFinset ∩
                (GA.set_baseline o baseline exc exf).baseline_pairs.toFinset).card : ℚ) /
              ((GA.set_baseline o baseline exc exf).baseline_pairs.toFinset.card : ℚ))
      ∧ ((GA.set_baseline o baseline exc exf).baseline_pairs = [] →
          GA.calculate_stability_bonus (GA.set_baseline o baseline exc exf) sol = 0) := by
  intro o baseline exc exf sol
  refine ⟨mem_set_baseline_pairs o baseline exc exf, fun hne => ?_, fun hemp => ?_⟩
  · have hnd : (GA.set_baseline o baseline exc exf).baseline_pairs.Nodup :=
      set_baseline_pairs_nodup o baseline exc exf
    unfold GA.calculate_stability_bonus
    rw [if_neg (by simp [hne])]
    dsimp only
    rw [filter_contains_length_eq_inter_card]
    rw [List.toFinset_card_of_nodup hnd]
    have h1 : 1 ≤ (GA.set_baseline o baseline exc exf).baseline_pairs.length :=
      List.length_pos.mpr hne
    have h3 : (1 : ℚ) ⊔ ((GA.set_baseline o baseline exc exf).baseline_pairs.length : ℚ) =
        ((GA.set_baseline o baseline exc exf).baseline_pairs.length : ℚ) :=
      max_eq_right (by exact_mod_cast h1)
    rw [h3]
  · unfold GA.calculate_stability_bonus
    rw [if_pos (by simp [hemp])]

/-- Witness for C7: the retained baseline of `baseRecs` (one valid
record, one excluded crew, one incomplete record) yields the stated
stability fraction on a one-assignment solution. -/
theorem baseline_retention_and_stability_fraction_witness :
    GA.calculate_stability_bonus (GA.set_baseline oEmpty baseRecs ["C2"] [])
        [GA.Assignment.mk "C1" "F1" "Captain"] =
      ((([GA.Assignment.mk "C1" "F1" "Captain"].map
            (fun a => (a.crew_id, a.flight_id, a.role))).toFinset ∩
          (GA.set_baseline oEmpty baseRecs ["C2"] []).baseline_pairs.toFinset).card : ℚ) /
        ((GA.set_baseline oEmpty baseRecs ["C2"] []).baseline_pairs.toFinset.card : ℚ) :=
  (baseline_retention_and_stability_fraction oEmpty baseRecs ["C2"] []
    [GA.Assignment.mk "C1" "F1" "Captain"]).2.1 (by decide)

/-! ## Shared lemmas about the exact model -/

theorem countP_eq_one_exists_unique {l : List Key} {p : Key → Bool} (h : l.countP p = 1) :
    ∃! k : Key, k ∈ l ∧ p k = true := by
  rw [List.countP_eq_length_filter] at h
  obtain ⟨a, ha⟩ := List.length_eq_one.mp h
  have hamem : a ∈ l.filter p := ha ▸ List.mem_singleton.mpr rfl
  refine ⟨a, ⟨(List.mem_filter.mp hamem).1, (List.mem_filter.mp hamem).2⟩, ?_⟩
  intro k hk
  have hkmem : k ∈ l.filter p := List.mem_filter.mpr ⟨hk.1, hk.2⟩
  rw [ha] at hkmem
  exact List.mem_singleton.mp hkmem

theorem exact_model_sat_elim {b : DataBundle} {sel : Key → Bool}
    (h : exact_model_sat b sel = true) :
    coverage_sat b sel = true ∧ amo_sat b sel = true ∧ comp_sat b sel = true ∧
    no_overlap_sat b sel = true ∧ rest_sat b sel = true ∧ night_weekly_sat b sel = true ∧
    night_consec_sat b sel = true ∧ daily_sat b sel = true ∧ ft7_sat b sel = true ∧
    continuity_sat b sel = true := by
  unfold exact_model_sat at h
  simp only [Bool.and_eq_true] at h
  tauto

theorem xkeys_crew_mem {b : DataBundle} {k : Key} (h : k ∈ xkeys b) :
    k.1 ∈ b.crew.map (fun c => c.crew_id) := by
  rw [xkeys, List.mem_dedup] at h
  unfold build_eligibility at h
  obtain ⟨slot, _, hmem⟩ := List.mem_flatMap.mp h
  unfold eligible_for_slot at hmem
  rcases hf : flights_by_id b slot.flight_id with _ | f
  · rw [hf] at hmem
    simp at hmem
  · rw [hf] at hmem
    simp only [List.mem_map, List.mem_filter] at hmem
    obtain ⟨c, ⟨hc, _⟩, heq⟩ := hmem
    rw [List.mem_map]
    refine ⟨c, hc, ?_⟩
    rw [← heq]

/-! ## C5 — coverage is exactly-one and hard -/

/-- C5: in any valuation satisfying the exact model, every role slot is
covered by exactly one selected eligible tuple; and a role slot with no
eligible tuple makes the model infeasible (the `== 1` constraint over an
empty sum is still posted), rather than being dropped or relaxed. -/
theorem exact_coverage_exactly_one :
    ∀ (b : DataBundle) (sel : Key → Bool),
      (exact_model_sat b sel = true →
        ∀ rs ∈ build_role_slots b, ∃! k : Key, k ∈ slot_keys b rs ∧ sel k = true)
      ∧ ((∃ rs ∈ build_role_slots b, slot_keys b rs = []) → exact_model_sat b sel = false) := by
  intro b sel
  constructor
  · intro h rs hrs
    have hc := (exact_model_sat_elim h).1
    rw [coverage_sat, List.all_eq_true] at hc
    have h2 := hc rs hrs
    simp only [beq_iff_eq] at h2
    exact countP_eq_one_exists_unique h2
  · rintro ⟨rs, hrs, hempty⟩
    cases hx : exact_model_sat b sel with
    | false => rfl
    | true =>
      exfalso
      have hc := (exact_model_sat_elim hx).1
      rw [coverage_sat, List.all_eq_true] at hc
      have h2 := hc rs hrs
      rw [hempty] at h2
      simp at h2

/-- Witness for C5: in the feasible valuation of `bundleC1`, the captain
slot of flight FA is covered by exactly one selected tuple. -/
theorem exact_coverage_exactly_one_witness :
    ∃! k : Key, k ∈ slot_keys bundleC1 (RoleSlot.mk "FA" "Captain" 0) ∧ selC1 k = true :=
  (exact_coverage_exactly_one bundleC1 selC1).1 (by decide) (RoleSlot.mk "FA" "Captain" 0)
    (by decide)

/-! ## C2 — at most one seat per crew and flight -/

/-- C2 counterexample: the genetic path violates the claim — on a flight
demanding two captains with a single eligible captain,
`create_random_solution` (whatever the random stream does; here the
all-zero stream) returns the same crew in both seats, and the mandatory
continuity repair keeps both copies. -/
theorem genetic_duplicate_seat_counterexample :
    (GA.create_random_solution oC2 (fun _ => 0)).countP
      (fun a => a == GA.Assignment.mk "C1" "F2" "Captain") = 2 := by
  decide

/-- C2 (amended): every valuation satisfying the exact model assigns
each crew at most one seat per flight — the per-(crew, flight) ≤ 1
constraints cover all pairs; the genetic path offers no such guarantee
(see the counterexample). -/
theorem exact_at_most_one_seat_per_crew_flight :
    ∀ (b : DataBundle) (sel : Key → Bool), exact_model_sat b sel = true →
      ∀ cid fid : String, (pair_keys b cid fid).countP sel ≤ 1 := by
  intro b sel h cid fid
  rcases hk : pair_keys b cid fid with _ | ⟨k0, rest⟩
  · simp
  · have hmem : k0 ∈ pair_keys b cid fid := by
      rw [hk]
      exact List.mem_cons_self _ _
    obtain ⟨hk0x, hcond⟩ := List.mem_filter.mp hmem
    simp only [Bool.and_eq_true, beq_iff_eq] at hcond
    obtain ⟨hc, hf⟩ := hcond
    have hcrew : cid ∈ b.crew.map (fun c => c.crew_id) := hc ▸ xkeys_crew_mem hk0x
    have ha := (exact_model_sat_elim h).2.1
    rw [amo_sat, List.all_eq_true] at ha
    have h2 := ha cid hcrew
    rw [List.all_eq_true] at h2
    have h3 := h2 k0 hk0x
    simp only [Bool.or_eq_true, Bool.not_eq_true', beq_eq_false_iff_ne, decide_eq_true_iff] at h3
    rcases h3 with h3 | h3
    · exact absurd hc h3
    · rw [hf, hk] at h3
      exact h3

/-- Witness for C2's exact-path bound on a concrete pair. -/
theorem exact_at_most_one_seat_per_crew_flight_witness :
    (pair_keys bundleC1 "CP1" "FA").countP selC1 ≤ 1 :=
  exact_at_most_one_seat_per_crew_flight bundleC1 selC1 (by decide) "CP1" "FA"

/-! ## C1 — minimum rest in the exact model -/

/-- C1 counterexample: only ADJACENT pairs of a crew's potential flights
are made mutually exclusive.  In `bundleC1`, flights FA and FC of crew
CP1 have a 1-hour gap — far below the 12-hour minimum — yet (FA, FC) is
not among the generated rest pairs because FB sits between them, and the
valuation selecting CP1 on both FA and FC (with CP2 covering FB)
satisfies every constraint of the model; FA and FC are consecutive,
by departure time, among CP1's selected flights. -/
theorem rest_gap_pair_feasible_both_selected :
    exact_model_sat bundleC1 selC1 = true ∧
    selC1 ("CP1", "FA", "Captain", 0) = true ∧
    selC1 ("CP1", "FC", "Captain", 0) = true ∧
    selected_flights_sorted bundleC1 selC1 "CP1" = [flightA, flightC] ∧
    flightC.dep_dt - flightA.arr_dt < bundleC1.rules.min_rest_hours_between_duties * 3600 ∧
    ("FA", "FC") ∉ rest_pairs bundleC1 "CP1" :=
  ⟨by decide, by decide, by decide, by decide, by decide, by decide⟩

/-- C1 (amended): for every crew, every pair of flights ADJACENT in the
departure-sorted list of that crew's potential flights whose gap is
below the minimum rest is made mutually exclusive: no valuation
satisfying the exact model selects variables of both flights for that
crew. -/
theorem rest_adjacent_pairs_mutually_exclusive :
    ∀ (b : DataBundle) (sel : Key → Bool), exact_model_sat b sel = true →
      ∀ (cid : String) (f1 f2 : Flight),
        (f1, f2) ∈ (sorted_crew_flights b cid).zip (sorted_crew_flights b cid).tail →
        f2.dep_dt - f1.arr_dt < b.rules.min_rest_hours_between_duties * 3600 →
        ∀ k1 ∈ pair_keys b cid f1.flight_id, ∀ k2 ∈ pair_keys b cid f2.flight_id,
          ¬(sel k1 = true ∧ sel k2 = true) := by
  intro b sel h cid f1 f2 hzip hgap k1 hk1 k2 hk2
  have hrp : (f1.flight_id, f2.flight_id) ∈ rest_pairs b cid := by
    unfold rest_pairs
    rw [List.mem_filterMap]
    exact ⟨(f1, f2), hzip, by rw [if_pos hgap]⟩
  obtain ⟨hk1x, hc1⟩ := List.mem_filter.mp hk1
  simp only [Bool.and_eq_true, beq_iff_eq] at hc1
  have hcid_mem : cid ∈ ((xkeys b).map (fun k => k.1)).dedup := by
    rw [List.mem_dedup, List.mem_map]
    exact ⟨k1, hk1x, hc1.1⟩
  have hr := (exact_model_sat_elim h).2.2.2.2.1
  rw [rest_sat, List.all_eq_true] at hr
  have h2 := hr cid hcid_mem
  rw [List.all_eq_true] at h2
  have h3 := h2 (f1.flight_id, f2.flight_id) hrp
  rw [List.all_eq_true] at h3
  have h4 := h3 k1 hk1
  rw [List.all_eq_true] at h4
  have h5 := h4 k2 hk2
  rintro ⟨s1, s2⟩
  simp [s1, s2] at h5

/-- Witness for C1 (amended): CP1's adjacent below-gap pair (FA, FB) is
indeed never jointly selected in the feasible valuation `selC1`. -/
theorem rest_adjacent_pairs_mutually_exclusive_witness :
    ¬(selC1 ("CP1", "FA", "Captain", 0) = true ∧ selC1 ("CP1", "FB", "Captain", 0) = true) :=
  rest_adjacent_pairs_mutually_exclusive bundleC1 selC1 (by decide) "CP1" flightA flightB
    (by decide) (by decide) ("CP1", "FA", "Captain", 0) (by decide)
    ("CP1", "FB", "Captain", 0) (by decide)

/-! ## C3 — the genetic fitness formula -/

/-- C3 counterexample: on the fully covered one-assignment individual
`solC3` (fairness score 1 with the default weights), the source's
evaluator yields 1001 — it ADDS the weighted fairness bonus — while the
claimed formula, which subtracts it, yields 999. -/
theorem fitness_fairness_sign_counterexample :
    GA.evaluate_fitness oGA3 sqZero solC3 = some 1001 ∧
    GA.spec_fitness_minus_fairness oGA3 sqZero solC3 = some 999 := by
  constructor <;>
    norm_num [GA.evaluate_fitness, GA.spec_fitness_minus_fairness, GA.coverage_score,
      GA.total_required_positions, GA.calculate_overtime_penalty, GA.crew_hours, GA.add_hours,
      GA.calculate_fairness_score, GA.continuity_penalty, GA.base_return_penalty,
      GA.schedule_crews, GA.crew_schedule, GA.last_by_arr, GA.calculate_stability_bonus,
      GA.flightsById, GA.crewById, oGA3, solC3, gFlight1, gCrew1, sqZero, max_def,
      List.insertionSort, List.orderedInsert]

/-- C3 (amended): the fitness of an empty individual is −∞ (`none`),
and for every non-empty individual whose crew and flight references
resolve, over a flight set with a positive slot total, the fitness is
`1000·coverage − 0.1·w_ot·overtime + 0.1·w_fair·fairness −
0.01·w_continuity·continuity − 0.01·w_base·base_return +
w_stability·stability`, floored at the constant 0.1 — the weighted
fairness bonus is ADDED, not subtracted. -/
theorem evaluate_fitness_formula :
    ∀ (o : GA.Optimizer) (sq : ℚ → ℚ) (solution : List GA.Assignment),
      GA.evaluate_fitness o sq [] = none
      ∧ (solution ≠ [] → GA.total_required_positions o ≠ 0 →
         (∀ a ∈ solution,
            (GA.crewById o a.crew_id).isSome = true ∧ (GA.flightsById o a.flight_id).isSome = true) →
         GA.evaluate_fitness o sq solution = some (max
           (1000 * GA.coverage_score o solution
             - (1/10) * o.w_ot * GA.calculate_overtime_penalty o solution
             + (1/10) * o.w_fair * GA.calculate_fairness_score o sq solution
             - (1/100) * o.w_continuity * GA.continuity_penalty o solution
             - (1/100) * o.w_base * GA.base_return_penalty o solution
             + o.w_stability * GA.calculate_stability_bonus o solution)
           (1/10))) := by
  intro o sq solution
  constructor
  · simp [GA.evaluate_fitness]
  · intro hne htot hlook
    unfold GA.evaluate_fitness
    rw [if_neg (by simp [hne])]
    rw [if_neg (by simp [htot])]
    rw [if_neg ?hany]
    case hany =>
      simp only [List.any_eq_true]
      rintro ⟨a, ha, hcond⟩
      obtain ⟨h1, h2⟩ := hlook a ha
      simp only [Bool.or_eq_true] at hcond
      rcases hcond with hcc | hff
      · rw [Option.isNone_iff_eq_none] at hcc
        rw [hcc] at h1
        simp at h1
      · rw [Option.isNone_iff_eq_none] at hff
        rw [hff] at h2
        simp at h2
    rw [if_neg ?hcov]
    case hcov =>
      have hlen : 0 < (solution.length : ℚ) := by
        exact_mod_cast List.length_pos.mpr hne
    

      have htot2 : 0 < ((GA.total_required_positions o : Nat) : ℚ) := by
        exact_mod_cast Nat.pos_of_ne_zero htot
      have hpos : 0 < GA.coverage_score o solution := by
        unfold GA.coverage_score
        exact lt_min_iff.mpr ⟨one_pos, div_pos hlen htot2⟩
      exact not_le.mpr hpos

/-- Witness for C3 (amended) on the concrete optimizer and individual. -/
theorem evaluate_fitness_formula_witness :
    GA.evaluate_fitness oGA3 sqZero solC3 = some (max
      (1000 * GA.coverage_score oGA3 solC3
        - (1/10) * oGA3.w_ot * GA.calculate_overtime_penalty oGA3 solC3
        + (1/10) * oGA3.w_fair * GA.calculate_fairness_score oGA3 sqZero solC3
        - (1/100) * oGA3.w_continuity * GA.continuity_penalty oGA3 solC3
        - (1/100) * oGA3.w_base * GA.base_return_penalty oGA3 solC3
        + oGA3.w_stability * GA.calculate_stability_bonus oGA3 solC3)
      (1/10)) :=
  (evaluate_fitness_formula oGA3 sqZero solC3).2 (by decide) (by decide) (by decide)
